import Mathlib

/-!
Shallow embedding of the ABACUS task manager (`app/main.py`, version 0.2.0).

Python UUIDs are modelled as natural numbers; `uuid4()` is modelled by a
fresh-id counter `nextId` carried in the application state (a fresh uuid never
collides with an existing one, so a freshly keyed insertion is an append).
`datetime` timestamps are natural numbers and `date` values are integers
(days), so the source's date comparisons `<`, `==`, `+ timedelta(days=1)`
become integer `<`, `=`, `+ 1`.  The Python dictionaries `TASKS`, `TEAMS`,
`USERS`, `NOTIFICATIONS` are modelled as insertion-ordered association lists
with unique keys, with `dictGet` / `dictSet` / `dictPop` mirroring `d.get`,
`d[k] = v` and `d.pop`.  Each FastAPI handler becomes a pure function from
the current state (plus the authenticated caller and the already-parsed
payload) to `Except ApiError (result × new state)`; raising `HTTPException`
becomes returning `Except.error`, in which case no new state is produced —
the global maps are untouched.  Pydantic field validation that guards a
handler (the `ge=0, le=100` bound on `ProgressUpdate.progress`) is modelled
as a validation check performed before the handler body runs, exactly as
FastAPI rejects the request before the handler is entered.
-/

/-- Roles, from `class Role(str, Enum)` in the source. -/
inductive Role where
  | admin
  | manager
  | user
deriving DecidableEq, Repr

/-- Task priorities, from `class Priority(str, Enum)`. -/
inductive Priority where
  | low
  | medium
  | high
  | critical
deriving DecidableEq, Repr

/-- Task statuses, from `class Status(str, Enum)`. -/
inductive Status where
  | not_started
  | in_progress
  | completed
  | blocked
deriving DecidableEq, Repr

/-- Notification types, from `class NotificationType(str, Enum)`. -/
inductive NotificationType where
  | TASK_ASSIGNED
  | TASK_DUE_SOON
  | TASK_OVERDUE
  | TASK_UPDATED
deriving DecidableEq, Repr

/-- The string value of a status, used in the source's
`f"Status changed to {payload.status}"` message. -/
def statusValue : Status → String
  | .not_started => "not_started"
  | .in_progress => "in_progress"
  | .completed => "completed"
  | .blocked => "blocked"

/-- A user record (`class UserOut(UserBase)`), fields as in the source. -/
structure UserOut where
  id : Nat
  email : String
  full_name : String
  role : Role
  team_ids : List Nat
  created_at : Nat
deriving DecidableEq, Repr

/-- A team record (`class TeamOut(TeamBase)`). -/
structure TeamOut where
  id : Nat
  name : String
  manager_ids : List Nat
  member_ids : List Nat
  created_at : Nat
deriving DecidableEq, Repr

/-- A task record (`class TaskOut(TaskBase)`). -/
structure TaskOut where
  id : Nat
  title : String
  description : Option String
  priority : Priority
  status : Status
  progress : Int
  due_date : Option Int
  assignee_id : Option Nat
  team_id : Option Nat
  creator_id : Option Nat
  created_at : Nat
  updated_at : Nat
deriving DecidableEq, Repr

/-- A notification record (`class NotificationOut(BaseModel)`). -/
structure NotificationOut where
  id : Nat
  type : NotificationType
  task_id : Option Nat
  message : String
  is_read : Bool
  created_at : Nat
  recipient_id : Option Nat
deriving DecidableEq, Repr

/-- Task-creation payload (`class TaskCreate(TaskBase)`): every field of
`TaskBase`, already validated by pydantic. -/
structure TaskCreate where
  title : String
  description : Option String
  priority : Priority
  status : Status
  progress : Int
  due_date : Option Int
  assignee_id : Option Nat
  team_id : Option Nat
deriving DecidableEq, Repr

/-- Partial-update payload (`class TaskUpdate(BaseModel)`), with
`model_dump(exclude_unset=True)` semantics: an outer `none` means the field
was absent from the request and is left untouched. -/
structure TaskUpdate where
  title : Option String
  description : Option (Option String)
  priority : Option Priority
  status : Option Status
  progress : Option Int
  due_date : Option (Option Int)
  assignee_id : Option (Option Nat)
  team_id : Option (Option Nat)
deriving DecidableEq, Repr

/-- The error taxonomy of §7: `HTTPException` status codes 401 / 403 / 404
and pydantic validation failure (422). -/
inductive ApiError where
  | unauthenticated
  | forbidden
  | notFound
  | validationError
deriving DecidableEq, Repr

/-- The process-wide in-memory stores (`USERS`, `TEAMS`, `TASKS`,
`NOTIFICATIONS`) plus the fresh-uuid counter. -/
structure AppState where
  users : List (Nat × UserOut)
  teams : List (Nat × TeamOut)
  tasks : List (Nat × TaskOut)
  notifications : List (Nat × NotificationOut)
  nextId : Nat
deriving DecidableEq, Repr

/-- Python `d.get(k)` on an insertion-ordered dict. -/
def dictGet {α : Type} (m : List (Nat × α)) (k : Nat) : Option α :=
  match m.find? (fun p => p.1 == k) with
  | none => none
  | some p => some p.2

/-- Python `d[k] = v`: overwrite in place if the key exists, else append. -/
def dictSet {α : Type} (m : List (Nat × α)) (k : Nat) (v : α) : List (Nat × α) :=
  if m.any (fun p => p.1 == k) then
    m.map (fun p => if p.1 == k then (k, v) else p)
  else
    m ++ [(k, v)]

/-- Python `d.pop(k)` / `del d[k]` (keys are unique, so filtering is it). -/
def dictPop {α : Type} (m : List (Nat × α)) (k : Nat) : List (Nat × α) :=
  m.filter (fun p => !(p.1 == k))

/-- Python's `x in l` where `x : Optional[UUID]` and `l : List[UUID]`:
`None` is never a member. -/
def optMemB (x : Option Nat) (l : List Nat) : Bool :=
  match x with
  | none => false
  | some v => l.contains v

/-- The visibility resolver `_visible_tasks_for(user)` (source lines
399-407): admins see everything; managers see tasks of teams whose manager
list contains them, plus tasks they are assignee or creator of; users see
only tasks they are assignee or creator of. -/
def visible_tasks_for (st : AppState) (user : UserOut) : List TaskOut :=
  let items := st.tasks.map Prod.snd
  match user.role with
  | Role.admin => items
  | Role.manager =>
      let team_ids := (st.teams.filter (fun p => p.2.manager_ids.contains user.id)).map Prod.fst
      items.filter (fun t =>
        optMemB t.team_id team_ids || t.assignee_id == some user.id || t.creator_id == some user.id)
  | Role.user =>
      items.filter (fun t => t.assignee_id == some user.id || t.creator_id == some user.id)

/-- The notification helper `_notify(ntype, task_id, message, recipient_id)`
(source lines 758-768): appends a fresh, unread notification.  `uuid4()` is
the fresh counter, so insertion with a fresh key is an append. -/
def notify (st : AppState) (ntype : NotificationType) (task_id : Nat)
    (message : String) (recipient_id : Option Nat) (now : Nat) : AppState :=
  let nid := st.nextId
  { st with
    nextId := nid + 1
    notifications := st.notifications ++
      [(nid, { id := nid, type := ntype, task_id := some task_id,
               message := message, is_read := false, created_at := now,
               recipient_id := recipient_id })] }

/-- `POST /tasks` (`create_task`, source lines 438-453): stores a fresh task
with `creator_id = current_user.id`; if the payload's `assignee_id` is
non-null, emits `TASK_ASSIGNED` to that assignee. -/
def create_task (st : AppState) (current_user : UserOut) (payload : TaskCreate)
    (now : Nat) : TaskOut × AppState :=
  let task_id := st.nextId
  let task : TaskOut :=
    { id := task_id, title := payload.title, description := payload.description,
      priority := payload.priority, status := payload.status,
      progress := payload.progress, due_date := payload.due_date,
      assignee_id := payload.assignee_id, team_id := payload.team_id,
      creator_id := some current_user.id, created_at := now, updated_at := now }
  let st1 : AppState :=
    { st with nextId := st.nextId + 1, tasks := st.tasks ++ [(task_id, task)] }
  if task.assignee_id.isSome then
    (task, notify st1 .TASK_ASSIGNED task_id
      ("You were assigned to: " ++ task.title) task.assignee_id now)
  else
    (task, st1)

/-- `GET /tasks/{task_id}` (`get_task`, source lines 456-463): 404 when the
id is absent, 403 when the task exists but is not in the caller's visible
set, the task otherwise. -/
def get_task (st : AppState) (current_user : UserOut) (task_id : Nat) :
    Except ApiError TaskOut :=
  match dictGet st.tasks task_id with
  | none => .error .notFound
  | some task =>
      if task ∈ visible_tasks_for st current_user then .ok task
      else .error .forbidden

/-- `PUT /tasks/{task_id}` (`replace_task`, source lines 466-483): guard
`existing.creator_id != current_user.id and current_user.role not in
(manager, admin)` yields 403; otherwise replaces every base field from the
payload, keeps `creator_id`/`created_at`, bumps `updated_at`, and emits a
broadcast `TASK_UPDATED`. -/
def replace_task (st : AppState) (current_user : UserOut) (task_id : Nat)
    (payload : TaskCreate) (now : Nat) : Except ApiError (TaskOut × AppState) :=
  match dictGet st.tasks task_id with
  | none => .error .notFound
  | some existing =>
      if existing.creator_id ≠ some current_user.id ∧
          ¬(current_user.role = Role.manager ∨ current_user.role = Role.admin) then
        .error .forbidden
      else
        let updated : TaskOut :=
          { id := task_id, title := payload.title,
            description := payload.description, priority := payload.priority,
            status := payload.status, progress := payload.progress,
            due_date := payload.due_date, assignee_id := payload.assignee_id,
            team_id := payload.team_id, creator_id := existing.creator_id,
            created_at := existing.created_at, updated_at := now }
        let st1 : AppState := { st with tasks := dictSet st.tasks task_id updated }
        .ok (updated, notify st1 .TASK_UPDATED task_id
          ("Task updated: " ++ updated.title) none now)

/-- Applying a `TaskUpdate` payload with `exclude_unset` semantics: each set
field overwrites, `updated_at` is bumped (the body of `update_task` after
its guard). -/
def applyTaskUpdate (existing : TaskOut) (payload : TaskUpdate) (now : Nat) :
    TaskOut :=
  { existing with
    title := payload.title.getD existing.title
    description := payload.description.getD existing.description
    priority := payload.priority.getD existing.priority
    status := payload.status.getD existing.status
    progress := payload.progress.getD existing.progress
    due_date := payload.due_date.getD existing.due_date
    assignee_id := payload.assignee_id.getD existing.assignee_id
    team_id := payload.team_id.getD existing.team_id
    updated_at := now }

/-- `PATCH /tasks/{task_id}` (`update_task`, source lines 486-500): same
guard as `replace_task`, then merges the set fields and emits a broadcast
`TASK_UPDATED`. -/
def update_task (st : AppState) (current_user : UserOut) (task_id : Nat)
    (payload : TaskUpdate) (now : Nat) : Except ApiError (TaskOut × AppState) :=
  match dictGet st.tasks task_id with
  | none => .error .notFound
  | some existing =>
      if existing.creator_id ≠ some current_user.id ∧
          ¬(current_user.role = Role.manager ∨ current_user.role = Role.admin) then
        .error .forbidden
      else
        let updated := applyTaskUpdate existing payload now
        let st1 : AppState := { st with tasks := dictSet st.tasks task_id updated }
        .ok (updated, notify st1 .TASK_UPDATED task_id
          ("Task updated: " ++ updated.title) none now)

/-- `DELETE /tasks/{task_id}` (`delete_task`, source lines 503-511): same
guard, then pops the task.  No notification. -/
def delete_task (st : AppState) (current_user : UserOut) (task_id : Nat) :
    Except ApiError AppState :=
  match dictGet st.tasks task_id with
  | none => .error .notFound
  | some existing =>
      if existing.creator_id ≠ some current_user.id ∧
          ¬(current_user.role = Role.manager ∨ current_user.role = Role.admin) then
        .error .forbidden
      else
        .ok { st with tasks := dictPop st.tasks task_id }

/-- `PATCH /tasks/{task_id}/status` (`set_status`, source lines 530-541):
requires only authentication (the caller parameter is unused beyond that);
overwrites `status`, bumps `updated_at`, emits a broadcast `TASK_UPDATED`. -/
def set_status (st : AppState) (_caller : UserOut) (task_id : Nat)
    (status : Status) (now : Nat) : Except ApiError (TaskOut × AppState) :=
  match dictGet st.tasks task_id with
  | none => .error .notFound
  | some existing =>
      let updated := { existing with status := status, updated_at := now }
      let st1 : AppState := { st with tasks := dictSet st.tasks task_id updated }
      .ok (updated, notify st1 .TASK_UPDATED task_id
        ("Status changed to " ++ statusValue status) none now)

/-- `PATCH /tasks/{task_id}/progress` (`set_progress`, source lines 544-554,
with the pydantic bound `ge=0, le=100` of `ProgressUpdate`, lines 522-523,
checked before the handler runs): requires only authentication; overwrites
`progress`, bumps `updated_at`.  No notification. -/
def set_progress (st : AppState) (_caller : UserOut) (task_id : Nat)
    (progress : Int) (now : Nat) : Except ApiError (TaskOut × AppState) :=
  if progress < 0 ∨ 100 < progress then .error .validationError
  else
    match dictGet st.tasks task_id with
    | none => .error .notFound
    | some existing =>
        let updated := { existing with progress := progress, updated_at := now }
        .ok (updated, { st with tasks := dictSet st.tasks task_id updated })

/-- `PATCH /tasks/{task_id}/assignee` (`set_assignee`, source lines 557-569):
requires only authentication; overwrites `assignee_id`, bumps `updated_at`;
emits `TASK_ASSIGNED` to the new assignee when it is non-null. -/
def set_assignee (st : AppState) (_caller : UserOut) (task_id : Nat)
    (assignee_id : Option Nat) (now : Nat) : Except ApiError (TaskOut × AppState) :=
  match dictGet st.tasks task_id with
  | none => .error .notFound
  | some existing =>
      let updated := { existing with assignee_id := assignee_id, updated_at := now }
      let st1 : AppState := { st with tasks := dictSet st.tasks task_id updated }
      if assignee_id.isSome then
        .ok (updated, notify st1 .TASK_ASSIGNED task_id
          ("You were assigned to: " ++ updated.title) assignee_id now)
      else
        .ok (updated, st1)

/-- `POST /tasks/bulk/status` (`bulk_set_status`, source lines 585-596):
requires only authentication; updates every listed task that exists,
silently skipping unknown ids.  Never fails. -/
def bulk_set_status (st : AppState) (_caller : UserOut) (task_ids : List Nat)
    (status : Status) (now : Nat) : List TaskOut × AppState :=
  task_ids.foldl
    (fun acc tid =>
      match dictGet acc.2.tasks tid with
      | none => acc
      | some t =>
          let u := { t with status := status, updated_at := now }
          (acc.1 ++ [u], { acc.2 with tasks := dictSet acc.2.tasks tid u }))
    ([], st)

/-- `POST /tasks/bulk/delete` (`bulk_delete`, source lines 599-603):
requires only authentication; pops every listed id (`pop(tid, None)`
ignores unknown ids).  Never fails. -/
def bulk_delete (st : AppState) (_caller : UserOut) (task_ids : List Nat) :
    AppState :=
  task_ids.foldl (fun s tid => { s with tasks := dictPop s.tasks tid }) st

/-- `PATCH /notifications/{id}/read` (`mark_notification_read`, source lines
782-791): 404 when absent; 403 when the caller is not admin and the
notification's recipient is neither null nor the caller; otherwise sets the
read flag. -/
def mark_notification_read (st : AppState) (current : UserOut) (nid : Nat) :
    Except ApiError (NotificationOut × AppState) :=
  match dictGet st.notifications nid with
  | none => .error .notFound
  | some n =>
      if current.role ≠ Role.admin ∧
          ¬(n.recipient_id = none ∨ n.recipient_id = some current.id) then
        .error .forbidden
      else
        let n2 := { n with is_read := true }
        .ok (n2, { st with notifications := dictSet st.notifications nid n2 })

/-- `DELETE /notifications/{id}` (`delete_notification`, source lines
803-811): same guard as `mark_notification_read`, then deletes the record
from the (shared, global) notification map. -/
def delete_notification (st : AppState) (current : UserOut) (nid : Nat) :
    Except ApiError AppState :=
  match dictGet st.notifications nid with
  | none => .error .notFound
  | some n =>
      if current.role ≠ Role.admin ∧
          ¬(n.recipient_id = none ∨ n.recipient_id = some current.id) then
        .error .forbidden
      else
        .ok { st with notifications := dictPop st.notifications nid }

/-- One iteration of the sweep loop in `simulate_notifications` (source
lines 864-877): a task without a due date is skipped; `due_date < today`
emits `TASK_OVERDUE` to the assignee; `due_date == today or today + 1` emits
`TASK_DUE_SOON`; otherwise nothing.  The accumulator is the `created`
counter plus the evolving state. -/
def sweep_step (today : Int) (now : Nat) (acc : Nat × AppState)
    (p : Nat × TaskOut) : Nat × AppState :=
  let t := p.2
  match t.due_date with
  | none => acc
  | some d =>
      if d < today then
        (acc.1 + 1, notify acc.2 .TASK_OVERDUE t.id
          ("Task overdue: " ++ t.title) t.assignee_id now)
      else if d = today ∨ d = today + 1 then
        (acc.1 + 1, notify acc.2 .TASK_DUE_SOON t.id
          ("Task due soon: " ++ t.title) t.assignee_id now)
      else acc

/-- `POST /simulate/notifications/run` (`simulate_notifications`, source
lines 864-877): folds the sweep step over all tasks, returning the number
of notifications created and the new state. -/
def simulate_notifications (st : AppState) (today : Int) (now : Nat) :
    Nat × AppState :=
  st.tasks.foldl (sweep_step today now) (0, st)

/-- Characterization of the Python membership test `x in l` for an optional
left operand. -/
theorem optMemB_iff (x : Option Nat) (l : List Nat) :
    optMemB x l = true ↔ ∃ v ∈ l, x = some v := by
  cases x <;> simp [optMemB]

/-- Sample admin user (mirrors the seeded admin). -/
def sampleAdminU : UserOut :=
  { id := 0, email := "admin@example.com", full_name := "Admin",
    role := .admin, team_ids := [], created_at := 0 }

/-- Sample plain user. -/
def sampleUserU : UserOut :=
  { id := 42, email := "u@example.com", full_name := "U",
    role := .user, team_ids := [], created_at := 0 }

/-- Sample manager, manager of team 5. -/
def sampleManagerU : UserOut :=
  { id := 7, email := "m@example.com", full_name := "M",
    role := .manager, team_ids := [5], created_at := 0 }

/-- Sample team managed by user 7, with user 42 as a plain member. -/
def sampleTeam : TeamOut :=
  { id := 5, name := "Team", manager_ids := [7], member_ids := [42],
    created_at := 0 }

/-- Sample task created by the admin, assigned to user 42, in team 5. -/
def sampleTask : TaskOut :=
  { id := 1, title := "Kickoff", description := none, priority := .high,
    status := .in_progress, progress := 25, due_date := some 11,
    assignee_id := some 42, team_id := some 5, creator_id := some 0,
    created_at := 0, updated_at := 0 }

/-- Sample broadcast notification (null recipient). -/
def sampleNotif : NotificationOut :=
  { id := 9, type := .TASK_UPDATED, task_id := some 1, message := "m",
    is_read := false, created_at := 0, recipient_id := none }

/-- Sample application state holding the records above. -/
def sampleState : AppState :=
  { users := [(0, sampleAdminU), (42, sampleUserU), (7, sampleManagerU)],
    teams := [(5, sampleTeam)], tasks := [(1, sampleTask)],
    notifications := [(9, sampleNotif)], nextId := 100 }

/-- Claim C1: for a caller of role `user`, a task in the map is in the
output of the visibility resolver iff the caller is its assignee or its
creator. -/
theorem user_role_visibility (st : AppState) (U : UserOut) (T : TaskOut)
    (hrole : U.role = Role.user) (hT : T ∈ st.tasks.map Prod.snd) :
    T ∈ visible_tasks_for st U ↔
      (T.assignee_id = some U.id ∨ T.creator_id = some U.id) := by
  unfold visible_tasks_for
  rw [hrole]
  simp [List.mem_filter, hT]

/-- Witness for `user_role_visibility` at the sample state: user 42 is the
assignee of the sample task, so it is visible. -/
theorem user_role_visibility_witness :
    (sampleUserU.role = Role.user ∧ sampleTask ∈ sampleState.tasks.map Prod.snd) ∧
    (sampleTask ∈ visible_tasks_for sampleState sampleUserU ↔
      (sampleTask.assignee_id = some sampleUserU.id ∨
        sampleTask.creator_id = some sampleUserU.id)) :=
  ⟨⟨rfl, by decide⟩,
    user_role_visibility sampleState sampleUserU sampleTask rfl (by decide)⟩

/-- Claim C2: for a caller of role `manager`, a task in the map is visible
iff its `team_id` names a team whose manager list contains the caller, or
the caller is its assignee or creator.  Membership in a team's *member*
list plays no part in the condition, so it grants nothing. -/
theorem manager_role_visibility (st : AppState) (M : UserOut) (T : TaskOut)
    (hrole : M.role = Role.manager) (hT : T ∈ st.tasks.map Prod.snd) :
    T ∈ visible_tasks_for st M ↔
      ((∃ p ∈ st.teams, T.team_id = some p.1 ∧ M.id ∈ p.2.manager_ids) ∨
        T.assignee_id = some M.id ∨ T.creator_id = some M.id) := by
  unfold visible_tasks_for
  rw [hrole]
  simp [List.mem_filter, hT, optMemB_iff]
  aesop

/-- Witness for `manager_role_visibility` at the sample state: manager 7
manages team 5 and the sample task belongs to team 5. -/
theorem manager_role_visibility_witness :
    (sampleManagerU.role = Role.manager ∧
      sampleTask ∈ sampleState.tasks.map Prod.snd) ∧
    (sampleTask ∈ visible_tasks_for sampleState sampleManagerU ↔
      ((∃ p ∈ sampleState.teams,
          sampleTask.team_id = some p.1 ∧ sampleManagerU.id ∈ p.2.manager_ids) ∨
        sampleTask.assignee_id = some sampleManagerU.id ∨
        sampleTask.creator_id = some sampleManagerU.id)) :=
  ⟨⟨rfl, by decide⟩,
    manager_role_visibility sampleState sampleManagerU sampleTask rfl (by decide)⟩

/-- Sample user-role caller unrelated to the sample task. -/
def sampleOtherU : UserOut :=
  { id := 99, email := "o@example.com", full_name := "O",
    role := .user, team_ids := [], created_at := 0 }

/-- Sample full-replace payload. -/
def samplePayload : TaskCreate :=
  { title := "New", description := none, priority := .low,
    status := .not_started, progress := 0, due_date := none,
    assignee_id := none, team_id := none }

/-- Sample partial-update payload with no field set. -/
def sampleUpd : TaskUpdate :=
  { title := none, description := none, priority := none, status := none,
    progress := none, due_date := none, assignee_id := none, team_id := none }

/-- Claim C4: on an existing task, replace / partial-update / delete allow
an `admin` or `manager` caller unconditionally; a `user` caller succeeds iff
they are the task's creator, and otherwise every one of the three
operations returns `forbidden` (an error carries no new state, so the map
is untouched). -/
theorem task_mutation_guard (st : AppState) (c : UserOut) (tid : Nat)
    (tc : TaskCreate) (tu : TaskUpdate) (now : Nat) (ex : TaskOut)
    (hex : dictGet st.tasks tid = some ex) :
    ((c.role = Role.admin ∨ c.role = Role.manager) →
        (∃ r, replace_task st c tid tc now = .ok r) ∧
        (∃ r, update_task st c tid tu now = .ok r) ∧
        (∃ s2, delete_task st c tid = .ok s2)) ∧
    (c.role = Role.user →
      ((ex.creator_id = some c.id →
          (∃ r, replace_task st c tid tc now = .ok r) ∧
          (∃ r, update_task st c tid tu now = .ok r) ∧
          (∃ s2, delete_task st c tid = .ok s2)) ∧
       (ex.creator_id ≠ some c.id →
          replace_task st c tid tc now = .error .forbidden ∧
          update_task st c tid tu now = .error .forbidden ∧
          delete_task st c tid = .error .forbidden))) := by
  constructor
  · rintro (h | h) <;>
      simp [replace_task, update_task, delete_task, hex, h]
  · intro hrole
    constructor
    · intro hcr
      simp [replace_task, update_task, delete_task, hex, hcr]
    · intro hcr
      simp [replace_task, update_task, delete_task, hex, hcr, hrole]

/-- Witness for `task_mutation_guard`: user 99 is not the creator of the
sample task (the admin is), so deleting it is forbidden. -/
theorem task_mutation_guard_witness :
    dictGet sampleState.tasks 1 = some sampleTask ∧
    delete_task sampleState sampleOtherU 1 = .error .forbidden :=
  ⟨by decide,
    (((task_mutation_guard sampleState sampleOtherU 1 samplePayload sampleUpd 3
        sampleTask (by decide)).2 rfl).2 (by decide)).2.2⟩

/-- Claim C7: fetching a task by id yields `notFound` when the id is absent
from the map, and `forbidden` when the task exists but is outside the
caller's visible set — two distinguishable errors. -/
theorem get_task_error_taxonomy (st : AppState) (c : UserOut) (tid : Nat) :
    (dictGet st.tasks tid = none → get_task st c tid = .error .notFound) ∧
    (∀ t, dictGet st.tasks tid = some t → t ∉ visible_tasks_for st c →
      get_task st c tid = .error .forbidden) := by
  constructor
  · intro h
    simp [get_task, h]
  · intro t ht hvis
    simp [get_task, ht, hvis]

/-- Witness for `get_task_error_taxonomy`: id 2 is absent from the sample
map; task 1 exists but user 99 cannot see it. -/
theorem get_task_error_taxonomy_witness :
    (dictGet sampleState.tasks 2 = none ∧
      get_task sampleState sampleOtherU 2 = .error .notFound) ∧
    (dictGet sampleState.tasks 1 = some sampleTask ∧
      sampleTask ∉ visible_tasks_for sampleState sampleOtherU ∧
      get_task sampleState sampleOtherU 1 = .error .forbidden) :=
  ⟨⟨by decide, (get_task_error_taxonomy sampleState sampleOtherU 2).1 (by decide)⟩,
   ⟨by decide, by decide,
     (get_task_error_taxonomy sampleState sampleOtherU 1).2 sampleTask
       (by decide) (by decide)⟩⟩

/-- Claim C8: a progress update outside 0..100 is rejected by the pydantic
bound on `ProgressUpdate` with a validation error — the handler never runs,
so no state is produced and the map is untouched — while an in-range value
succeeds on an existing task. -/
theorem progress_range_validation (st : AppState) (c : UserOut) (tid : Nat)
    (p : Int) (now : Nat) (ex : TaskOut)
    (hex : dictGet st.tasks tid = some ex) :
    ((p < 0 ∨ 100 < p) →
      set_progress st c tid p now = .error .validationError) ∧
    (0 ≤ p → p ≤ 100 → ∃ r, set_progress st c tid p now = .ok r) := by
  constructor
  · intro h
    simp [set_progress, h]
  · intro h0 h1
    have h : ¬(p < 0 ∨ 100 < p) := by omega
    simp [set_progress, h, hex]

/-- Witness for `progress_range_validation`: 101 is rejected, 50 accepted,
on the sample task. -/
theorem progress_range_validation_witness :
    dictGet sampleState.tasks 1 = some sampleTask ∧
    set_progress sampleState sampleUserU 1 101 3 = .error .validationError ∧
    (∃ r, set_progress sampleState sampleUserU 1 50 3 = .ok r) :=
  ⟨by decide,
   (progress_range_validation sampleState sampleUserU 1 101 3 sampleTask
     (by decide)).1 (by decide),
   (progress_range_validation sampleState sampleUserU 1 50 3 sampleTask
     (by decide)).2 (by decide) (by decide)⟩

/-- Claim C9: a successful progress update returns exactly the existing
task with only `progress` and `updated_at` overwritten, and a state that
differs from the old one only in the `tasks` map entry — in particular the
notification map (and every other store) is unchanged and no notification
is created. -/
theorem set_progress_frame (st : AppState) (c : UserOut) (tid : Nat)
    (p : Int) (now : Nat) (ex : TaskOut)
    (hex : dictGet st.tasks tid = some ex) (h0 : 0 ≤ p) (h1 : p ≤ 100) :
    set_progress st c tid p now =
      .ok ({ ex with progress := p, updated_at := now },
        { st with tasks :=
            dictSet st.tasks tid { ex with progress := p, updated_at := now } }) := by
  have h : ¬(p < 0 ∨ 100 < p) := by omega
  simp [set_progress, h, hex]

/-- Witness for `set_progress_frame` at the sample state. -/
theorem set_progress_frame_witness :
    (dictGet sampleState.tasks 1 = some sampleTask ∧
      (0 : Int) ≤ 50 ∧ (50 : Int) ≤ 100) ∧
    set_progress sampleState sampleOtherU 1 50 3 =
      .ok ({ sampleTask with progress := 50, updated_at := 3 },
        { sampleState with tasks :=
            (dictSet sampleState.tasks 1
              { sampleTask with progress := 50, updated_at := 3 }) }) :=
  ⟨⟨by decide, by decide, by decide⟩,
   set_progress_frame sampleState sampleOtherU 1 50 3 sampleTask
     (by decide) (by decide) (by decide)⟩

/-- Claim C10: on a broadcast notification (null recipient), deletion and
mark-read succeed for a caller of any role — the guard can never fire, so
neither returns `forbidden` — and deletion removes the record from the one
shared notification map. -/
theorem broadcast_notification_access (st : AppState) (c : UserOut)
    (nid : Nat) (n : NotificationOut)
    (hn : dictGet st.notifications nid = some n)
    (hb : n.recipient_id = none) :
    delete_notification st c nid =
      .ok { st with notifications := dictPop st.notifications nid } ∧
    mark_notification_read st c nid =
      .ok ({ n with is_read := true },
        { st with notifications :=
            dictSet st.notifications nid { n with is_read := true } }) := by
  constructor <;>
    simp [delete_notification, mark_notification_read, hn, hb]

/-- Witness for `broadcast_notification_access`: the sample broadcast
notification, deleted and marked read by the unrelated plain user 99. -/
theorem broadcast_notification_access_witness :
    (dictGet sampleState.notifications 9 = some sampleNotif ∧
      sampleNotif.recipient_id = none) ∧
    (delete_notification sampleState sampleOtherU 9 =
      .ok { sampleState with
              notifications := dictPop sampleState.notifications 9 } ∧
     mark_notification_read sampleState sampleOtherU 9 =
      .ok ({ sampleNotif with is_read := true },
        { sampleState with notifications :=
            (dictSet sampleState.notifications 9
              { sampleNotif with is_read := true }) })) :=
  ⟨⟨by decide, rfl⟩,
   broadcast_notification_access sampleState sampleOtherU 9 sampleNotif
     (by decide) rfl⟩

/-- Sample creation payload carrying an assignee. -/
def samplePayloadAssigned : TaskCreate :=
  { samplePayload with assignee_id := some 42 }

/-- Claim C6: creating a task with a non-null assignee, and setting a
non-null assignee through the convenience endpoint, each append exactly one
unread `TASK_ASSIGNED` notification addressed to that assignee; with a null
assignee the notification map is left exactly as it was. -/
theorem task_assigned_notification (st : AppState) (c : UserOut)
    (payload : TaskCreate) (tid : Nat) (ex : TaskOut) (a : Option Nat)
    (now : Nat) (hex : dictGet st.tasks tid = some ex) :
    ((payload.assignee_id = none →
        (create_task st c payload now).2.notifications = st.notifications) ∧
     (∀ b, payload.assignee_id = some b →
        (create_task st c payload now).2.notifications =
          st.notifications ++
            [(st.nextId + 1,
              { id := st.nextId + 1, type := .TASK_ASSIGNED,
                task_id := some st.nextId,
                message := "You were assigned to: " ++ payload.title,
                is_read := false, created_at := now,
                recipient_id := some b })])) ∧
    ((a = none → ∃ u s2, set_assignee st c tid a now = .ok (u, s2) ∧
        s2.notifications = st.notifications) ∧
     (∀ b, a = some b → ∃ u s2, set_assignee st c tid a now = .ok (u, s2) ∧
        s2.notifications =
          st.notifications ++
            [(st.nextId,
              { id := st.nextId, type := .TASK_ASSIGNED, task_id := some tid,
                message := "You were assigned to: " ++ ex.title,
                is_read := false, created_at := now,
                recipient_id := some b })])) := by
  refine ⟨⟨?_, ?_⟩, ?_, ?_⟩
  · intro h
    simp [create_task, h]
  · intro b hb
    simp [create_task, notify, hb]
  · intro ha
    subst ha
    exact ⟨{ ex with assignee_id := none, updated_at := now },
      { st with tasks :=
          (dictSet st.tasks tid { ex with assignee_id := none, updated_at := now }) },
      by simp [set_assignee, hex], rfl⟩
  · intro b hb
    subst hb
    exact ⟨{ ex with assignee_id := some b, updated_at := now },
      { st with
          tasks := (dictSet st.tasks tid
            { ex with assignee_id := some b, updated_at := now })
          nextId := st.nextId + 1
          notifications := st.notifications ++
            [(st.nextId,
              { id := st.nextId, type := .TASK_ASSIGNED, task_id := some tid,
                message := "You were assigned to: " ++ ex.title,
                is_read := false, created_at := now,
                recipient_id := some b })] },
      by simp [set_assignee, hex, notify], rfl⟩

/-- Witness for `task_assigned_notification`: creating a task assigned to
user 42 and re-assigning the sample task to user 7, in the sample state. -/
theorem task_assigned_notification_witness :
    dictGet sampleState.tasks 1 = some sampleTask ∧
    ((create_task sampleState sampleUserU samplePayloadAssigned 3).2.notifications =
      sampleState.notifications ++
        [(sampleState.nextId + 1,
          { id := sampleState.nextId + 1, type := .TASK_ASSIGNED,
            task_id := some sampleState.nextId,
            message := "You were assigned to: " ++ samplePayloadAssigned.title,
            is_read := false, created_at := 3,
            recipient_id := some 42 })]) ∧
    (∃ u s2, set_assignee sampleState sampleUserU 1 (some 7) 3 = .ok (u, s2) ∧
      s2.notifications =
        sampleState.notifications ++
          [(sampleState.nextId,
            { id := sampleState.nextId, type := .TASK_ASSIGNED,
              task_id := some 1,
              message := "You were assigned to: " ++ sampleTask.title,
              is_read := false, created_at := 3,
              recipient_id := some 7 })]) :=
  ⟨by decide,
   (task_assigned_notification sampleState sampleUserU samplePayloadAssigned 1
      sampleTask (some 7) 3 (by decide)).1.2 42 rfl,
   (task_assigned_notification sampleState sampleUserU samplePayloadAssigned 1
      sampleTask (some 7) 3 (by decide)).2.2 7 rfl⟩

/-- The content of a notification minus its generated identifier, used to
state which notifications a sweep appends independently of the fresh ids it
draws. -/
structure NotifData where
  type : NotificationType
  task_id : Option Nat
  message : String
  is_read : Bool
  created_at : Nat
  recipient_id : Option Nat
deriving DecidableEq, Repr

/-- Forgets a notification's generated identifier. -/
def notifData (n : NotificationOut) : NotifData :=
  { type := n.type, task_id := n.task_id, message := n.message,
    is_read := n.is_read, created_at := n.created_at,
    recipient_id := n.recipient_id }

/-- The notification (if any) the sweep owes a single task: `TASK_OVERDUE`
to the assignee when the due date is past, `TASK_DUE_SOON` when it is today
or tomorrow, nothing otherwise or without a due date. -/
def sweepData (today : Int) (now : Nat) (t : TaskOut) : Option NotifData :=
  match t.due_date with
  | none => none
  | some d =>
      if d < today then
        some { type := .TASK_OVERDUE, task_id := some t.id,
               message := "Task overdue: " ++ t.title, is_read := false,
               created_at := now, recipient_id := t.assignee_id }
      else if d = today ∨ d = today + 1 then
        some { type := .TASK_DUE_SOON, task_id := some t.id,
               message := "Task due soon: " ++ t.title, is_read := false,
               created_at := now, recipient_id := t.assignee_id }
      else none

/-- The sweep fold appends, in task order, exactly the notification each
task is owed, and counts them. -/
theorem sweep_foldl_notifications (today : Int) (now : Nat) :
    ∀ (l : List (Nat × TaskOut)) (k : Nat) (s : AppState),
      ((l.foldl (sweep_step today now) (k, s)).2.notifications.map
          (fun p => notifData p.2)
        = s.notifications.map (fun p => notifData p.2) ++
            l.filterMap (fun p => sweepData today now p.2)) ∧
      (l.foldl (sweep_step today now) (k, s)).1 =
        k + (l.filterMap (fun p => sweepData today now p.2)).length := by
  intro l
  induction l with
  | nil => intro k s; simp
  | cons p rest ih =>
      intro k s
      rcases hd : p.2.due_date with _ | d
      · simpa [sweep_step, hd, sweepData] using ih k s
      · by_cases h1 : d < today
        · obtain ⟨ih1, ih2⟩ := ih (k + 1)
            (notify s .TASK_OVERDUE p.2.id ("Task overdue: " ++ p.2.title)
              p.2.assignee_id now)
          have hs : sweep_step today now (k, s) p
              = (k + 1, notify s .TASK_OVERDUE p.2.id
                  ("Task overdue: " ++ p.2.title) p.2.assignee_id now) := by
            simp [sweep_step, hd, h1]
          rw [List.foldl_cons, hs]
          refine ⟨?_, ?_⟩
          · rw [ih1]
            simp [sweepData, hd, h1, notifData, notify]
          · rw [ih2]
            have hlen : (List.filterMap (fun p => sweepData today now p.2)
                (p :: rest)).length
                = 1 + (List.filterMap (fun p => sweepData today now p.2)
                    rest).length := by
              simp [List.filterMap_cons, sweepData, hd, h1]
              omega
            omega
        · by_cases h2 : d = today ∨ d = today + 1
          · obtain ⟨ih1, ih2⟩ := ih (k + 1)
              (notify s .TASK_DUE_SOON p.2.id ("Task due soon: " ++ p.2.title)
                p.2.assignee_id now)
            have hs : sweep_step today now (k, s) p
                = (k + 1, notify s .TASK_DUE_SOON p.2.id
                    ("Task due soon: " ++ p.2.title) p.2.assignee_id now) := by
              simp [sweep_step, hd, h1, h2]
            rw [List.foldl_cons, hs]
            refine ⟨?_, ?_⟩
            · rw [ih1]
              simp [sweepData, hd, h1, h2, notifData, notify]
            · rw [ih2]
              have hlen : (List.filterMap (fun p => sweepData today now p.2)
                  (p :: rest)).length
                  = 1 + (List.filterMap (fun p => sweepData today now p.2)
                      rest).length := by
                simp [List.filterMap_cons, sweepData, hd, h1, h2]
                omega
              omega
          · have hs : sweep_step today now (k, s) p = (k, s) := by
              simp [sweep_step, hd, h1, h2]
            rw [List.foldl_cons, hs]
            have hnone : sweepData today now p.2 = none := by
              simp [sweepData, hd, h1, h2]
            simpa [List.filterMap_cons, hnone] using ih k s

/-- Claim C5: one sweep invocation appends, per task, exactly the
notification classified by `sweepData` — `TASK_OVERDUE` to the assignee for
a past due date, `TASK_DUE_SOON` for today or tomorrow, nothing otherwise
or with no due date — and returns the count of notifications created. -/
theorem sweep_notification_spec (st : AppState) (today : Int) (now : Nat) :
    ((simulate_notifications st today now).2.notifications.map
        (fun p => notifData p.2)
      = st.notifications.map (fun p => notifData p.2) ++
          st.tasks.filterMap (fun p => sweepData today now p.2)) ∧
    (simulate_notifications st today now).1 =
      (st.tasks.filterMap (fun p => sweepData today now p.2)).length := by
  simpa [simulate_notifications] using
    sweep_foldl_notifications today now st.tasks 0 st

/-- Claim C3 is false on the code: user 99 has role `user`, is neither
creator nor assignee of the sample task, yet the progress convenience
update succeeds and overwrites the task, and bulk-delete removes it — no
`forbidden` error, and the writes happen.  The convenience and bulk
endpoints carry no guard beyond authentication. -/
theorem convenience_guard_counterexample :
    sampleOtherU.role = Role.user ∧
    sampleTask.creator_id ≠ some sampleOtherU.id ∧
    sampleTask.assignee_id ≠ some sampleOtherU.id ∧
    dictGet sampleState.tasks 1 = some sampleTask ∧
    set_progress sampleState sampleOtherU 1 50 3 =
      .ok ({ sampleTask with progress := 50, updated_at := 3 },
        { sampleState with tasks :=
            (dictSet sampleState.tasks 1
              { sampleTask with progress := 50, updated_at := 3 }) }) ∧
    dictGet (bulk_delete sampleState sampleOtherU [1]).tasks 1 = none :=
  ⟨rfl, by decide, by decide, by decide, by rfl, by decide⟩

/-- Claim C3 (amended): the replace, partial-update and single-delete task
endpoints do apply the ownership guard before writing — a `user`-role
caller who is not the creator gets `forbidden`, and an error carries no new
state — but the status/progress/assignee convenience updates and the bulk
status-update and bulk-delete operations apply no guard beyond
authentication: on an existing task they succeed for that same denied
caller, never return `forbidden`, and their outcome does not depend on the
caller at all. -/
theorem mutation_guard_amended (st : AppState) (c : UserOut) (tid : Nat)
    (tc : TaskCreate) (tu : TaskUpdate) (s : Status) (p : Int)
    (a : Option Nat) (ids : List Nat) (now : Nat) (ex : TaskOut)
    (hex : dictGet st.tasks tid = some ex)
    (hrole : c.role = Role.user) (hown : ex.creator_id ≠ some c.id) :
    (replace_task st c tid tc now = .error .forbidden ∧
     update_task st c tid tu now = .error .forbidden ∧
     delete_task st c tid = .error .forbidden) ∧
    ((∃ r, set_status st c tid s now = .ok r) ∧
     (0 ≤ p → p ≤ 100 → ∃ r, set_progress st c tid p now = .ok r) ∧
     (∃ r, set_assignee st c tid a now = .ok r)) ∧
    (∀ c2 : UserOut,
      set_status st c tid s now = set_status st c2 tid s now ∧
      set_progress st c tid p now = set_progress st c2 tid p now ∧
      set_assignee st c tid a now = set_assignee st c2 tid a now ∧
      bulk_set_status st c ids s now = bulk_set_status st c2 ids s now ∧
      bulk_delete st c ids = bulk_delete st c2 ids) := by
  refine ⟨?_, ⟨?_, ?_, ?_⟩, ?_⟩
  · simp [replace_task, update_task, delete_task, hex, hrole, hown]
  · simp [set_status, hex]
  · intro h0 h1
    have h : ¬(p < 0 ∨ 100 < p) := by omega
    simp [set_progress, h, hex]
  · rcases a with _ | b <;> simp [set_assignee, hex]
  · intro c2
    exact ⟨rfl, rfl, rfl, rfl, rfl⟩

/-- Witness for `mutation_guard_amended`: user 99 (denied by the guard) is
forbidden from deleting the sample task but freely sets its status. -/
theorem mutation_guard_amended_witness :
    (dictGet sampleState.tasks 1 = some sampleTask ∧
      sampleOtherU.role = Role.user ∧
      sampleTask.creator_id ≠ some sampleOtherU.id) ∧
    delete_task sampleState sampleOtherU 1 = .error .forbidden ∧
    (∃ r, set_status sampleState sampleOtherU 1 Status.completed 3 = .ok r) :=
  ⟨⟨by decide, rfl, by decide⟩,
   (mutation_guard_amended sampleState sampleOtherU 1 samplePayload sampleUpd
      Status.completed 50 none [] 3 sampleTask (by decide) rfl
      (by decide)).1.2.2,
   (mutation_guard_amended sampleState sampleOtherU 1 samplePayload sampleUpd
      Status.completed 50 none [] 3 sampleTask (by decide) rfl
      (by decide)).2.1.1⟩
